import Mathlib

/-!
# bioctl_linux.c : a shallow embedding and its properties

The program is a root-only command dispatcher: it turns eight subcommands into
command lines for `mdadm` and `cryptsetup`, runs them through `system(3)` and
appends lines to a log file.

Modelling conventions.

* A C string is a `String`; every `Char` stands for one byte, so `String.length`
  is `strlen`.
* `argv` is a `List String`, `argc` is its length, and `argv[i]` is `argv[i]?`
  (`none` is the terminating `NULL` pointer).
* The environment is a `World`: the effective user id, the value returned by
  `system(3)` for a command line, whether the k-th `fopen` of the log file
  succeeds, and the broken-down local time seen by the k-th call of
  `log_message`.
* Effects are recorded, in order, in a trace of `Event`s.
* `exit(1)` is the result `Res.exit`; writing past the end of a `char` array is
  the result `Res.undef`.
-/

namespace Bioctl

/-! ## Environment, events, results -/

/-- The fields of `struct tm` read by `log_message`. -/
structure Tm where
  tm_year : Int
  tm_mon : Int
  tm_mday : Int
  tm_hour : Int
  tm_min : Int
  tm_sec : Int

/-- What the process can observe of its environment. -/
structure World where
  /-- Result of `geteuid()`. -/
  euid : Nat
  /-- Value returned by `system(cmd)`. -/
  system : String → Int
  /-- Does the k-th `fopen(LOG_FILE, "a")` return a stream? -/
  fopen : Nat → Bool
  /-- Value of `localtime(time(NULL))` in the k-th call of `log_message`. -/
  localtime : Nat → Tm

/-- Observable effects, in program order. -/
inductive Event where
  | stdout (text : String)
  | stderr (text : String)
  | log (line : String)
  | system (cmd : String)
  deriving DecidableEq, Repr

/-- Program state threaded through the handlers: the effects so far and the
number of `log_message` calls made so far. -/
structure State where
  trace : List Event
  logCalls : Nat

/-- Record one effect. -/
def State.emit (s : State) (e : Event) : State :=
  { s with trace := s.trace ++ [e] }

/-- Result of running a piece of the program: it returns normally, it calls
`exit`, or it runs into undefined behaviour. -/
inductive Res (α : Type) where
  | ret (a : α) (s : State)
  | exit (code : Int) (s : State)
  | undef (s : State)

/-- The state in which a result was produced. -/
def Res.state {α : Type} : Res α → State
  | Res.ret _ s => s
  | Res.exit _ s => s
  | Res.undef s => s

/-! ## libc pieces -/

/-- The character of a decimal digit. -/
def digitChar (d : Nat) : Char := Char.ofNat (48 + d)

/-- Decimal digits of `n`, most significant first, by repeated division. -/
def decDigitsFuel : Nat → Nat → List Char
  | 0, _ => []
  | fuel + 1, n =>
    if n < 10 then [digitChar n] else decDigitsFuel fuel (n / 10) ++ [digitChar (n % 10)]

/-- Decimal digits of `n` (the fuel `n + 1` is always enough). -/
def decDigits (n : Nat) : List Char := decDigitsFuel (n + 1) n

/-- The conversion `%0<w>d` of `printf`: sign, then zeros up to the field width,
then the digits. -/
def fmt_0d (w : Nat) (v : Int) : String :=
  if 0 ≤ v then
    let ds := decDigits v.toNat
    String.mk (List.replicate (w - ds.length) '0' ++ ds)
  else
    let ds := decDigits (-v).toNat
    String.mk ('-' :: (List.replicate (w - 1 - ds.length) '0' ++ ds))

/-- The call `snprintf(buf, size, ...)` where `full` is the fully formatted text: at most
`size - 1` bytes are stored. -/
def snprintf (size : Nat) (full : String) : String :=
  String.mk (full.data.take (size - 1))

/-- The call `strcat(dest, src)` on a destination array of `size` bytes: defined only when
the result and its terminator fit. -/
def strcat (size : Nat) (dest src : String) : Option String :=
  if dest.length + src.length < size then some (dest ++ src) else none

/-! ## The program -/

/-- The text produced by the `fprintf` of `log_message`, format
`"%04d-%02d-%02d %02d:%02d:%02d [%s] %s\n"`. -/
def logLine (t : Tm) (level message : String) : String :=
  fmt_0d 4 (t.tm_year + 1900) ++ "-" ++ fmt_0d 2 (t.tm_mon + 1) ++ "-" ++
    fmt_0d 2 t.tm_mday ++ " " ++ fmt_0d 2 t.tm_hour ++ ":" ++ fmt_0d 2 t.tm_min ++ ":" ++
    fmt_0d 2 t.tm_sec ++ " [" ++ level ++ "] " ++ message ++ "\n"

/-- `log_message`: append one line to the log file, or do nothing when the
file cannot be opened. -/
def log_message (w : World) (level message : String) (s : State) : State :=
  if w.fopen s.logCalls then
    let t := w.localtime s.logCalls
    { trace := s.trace ++ [Event.log (logLine t level message)],
      logCalls := s.logCalls + 1 }
  else
    { s with logCalls := s.logCalls + 1 }

/-- The text printed by `usage`. -/
def usageText : String :=
  "Usage: bioctl \x7bcreate|add|remove|status|encrypt|decrypt|repair|key-management\x7d [options]\n"

/-- `usage`: print the usage line and `exit(1)`. -/
def usage {α : Type} (s : State) : Res α :=
  Res.exit 1 (s.emit (Event.stdout usageText))

/-- `handle_error`: message on standard error, `ERROR` log entry, usage. -/
def handle_error {α : Type} (w : World) (message : String) (s : State) : Res α :=
  usage (log_message w "ERROR" message (s.emit (Event.stderr ("Error: " ++ message ++ "\n"))))

/-- The call `system(cmd)`: record the command line, return the status. -/
def callSystem (w : World) (cmd : String) (s : State) : Int × State :=
  (w.system cmd, s.emit (Event.system cmd))

/-- The command line built by `command_exists`. -/
def probeCmd (cmd : String) : String :=
  snprintf 256 ("/usr/bin/which " ++ cmd ++ " > /dev/null 2>&1")

/-- `command_exists`. -/
def command_exists (w : World) (cmd : String) (s : State) : Bool × State :=
  let r := callSystem w (probeCmd cmd) s
  (decide (r.1 = 0), r.2)

/-- Tail shared by every handler: `INFO` entry, run the command, check its status. -/
def logAndRun (w : World) (info cmd failure : String) (s : State) : Res Unit :=
  let s1 := log_message w "INFO" info s
  let r := callSystem w cmd s1
  if r.1 ≠ 0 then handle_error w failure r.2 else Res.ret () r.2

/-- The loop of `create_raid`: `strcat(cmd, " "); strcat(cmd, argv[i]);`. -/
def appendArgs (size : Nat) (cmd : String) : List String → Option String
  | [] => some cmd
  | a :: rest =>
    match strcat size cmd " " with
    | none => none
    | some c1 =>
      match strcat size c1 a with
      | none => none
      | some c2 => appendArgs size c2 rest

/-- The command line of `create_raid` for an argument vector with `argc ≥ 6`;
`none` when an argument pointer is `NULL` or the 1024-byte array is overrun. -/
def createCmd (argv : List String) : Option String :=
  match argv[2]?, argv[3]?, argv[4]? with
  | some raid_device, some raid_level, some raid_disks =>
    appendArgs 1024
      (snprintf 1024 ("mdadm --create " ++ raid_device ++ " --level=" ++ raid_level ++
        " --raid-devices=" ++ raid_disks))
      (argv.drop 5)
  | _, _, _ => none

/-- `create_raid`. -/
def create_raid (w : World) (argv : List String) (s : State) : Res Unit :=
  if argv.length < 6 then handle_error w "Missing arguments for create." s
  else
    match createCmd argv with
    | none => Res.undef s
    | some cmd => logAndRun w "Creating RAID array" cmd "Failed to create RAID array" s

/-- `add_disk`. -/
def add_disk (w : World) (argv : List String) (s : State) : Res Unit :=
  match argv[2]?, argv[3]? with
  | some a2, some a3 =>
    logAndRun w "Adding disk to RAID array" (snprintf 256 ("mdadm --add " ++ a2 ++ " " ++ a3))
      "Failed to add disk to RAID array" s
  | _, _ => handle_error w "Missing arguments for add." s

/-- `remove_disk`. -/
def remove_disk (w : World) (argv : List String) (s : State) : Res Unit :=
  match argv[2]?, argv[3]? with
  | some a2, some a3 =>
    logAndRun w "Removing disk from RAID array"
      (snprintf 256 ("mdadm --remove " ++ a2 ++ " " ++ a3))
      "Failed to remove disk from RAID array" s
  | _, _ => handle_error w "Missing arguments for remove." s

/-- `status_raid`. -/
def status_raid (w : World) (argv : List String) (s : State) : Res Unit :=
  match argv[2]? with
  | some a2 =>
    logAndRun w "Checking RAID status" (snprintf 256 ("mdadm --detail " ++ a2))
      "Failed to check RAID status" s
  | none => handle_error w "Missing RAID device for status." s

/-- `encrypt_disk`. -/
def encrypt_disk (w : World) (argv : List String) (s : State) : Res Unit :=
  match argv[2]? with
  | some a2 =>
    logAndRun w "Encrypting disk" (snprintf 256 ("cryptsetup luksFormat " ++ a2))
      "Failed to encrypt disk" s
  | none => handle_error w "Missing disk for encryption." s

/-- `decrypt_disk`. -/
def decrypt_disk (w : World) (argv : List String) (s : State) : Res Unit :=
  match argv[2]? with
  | some a2 =>
    logAndRun w "Decrypting disk" (snprintf 256 ("cryptsetup luksClose " ++ a2))
      "Failed to decrypt disk" s
  | none => handle_error w "Missing encrypted disk name." s

/-- `repair_raid`. -/
def repair_raid (w : World) (s : State) : Res Unit :=
  logAndRun w "Repairing RAID array" "mdadm --assemble --scan" "Failed to repair RAID array" s

/-- `key_management`. -/
def key_management (w : World) (argv : List String) (s : State) : Res Unit :=
  match argv[2]?, argv[3]? with
  | some a2, some a3 =>
    if a3 = "add" then
      logAndRun w "Managing encryption key" (snprintf 256 ("cryptsetup luksAddKey " ++ a2))
        "Failed to manage encryption key" s
    else if a3 = "remove" then
      logAndRun w "Managing encryption key" (snprintf 256 ("cryptsetup luksRemoveKey " ++ a2))
        "Failed to manage encryption key" s
    else handle_error w "Unknown key management operation" s
  | _, _ => handle_error w "Missing arguments for key management." s

/-- The `strcmp` chain of `main`. -/
def dispatch (w : World) (argv : List String) (a1 : String) (s : State) : Res Unit :=
  if a1 = "create" then create_raid w argv s
  else if a1 = "add" then add_disk w argv s
  else if a1 = "remove" then remove_disk w argv s
  else if a1 = "status" then status_raid w argv s
  else if a1 = "encrypt" then encrypt_disk w argv s
  else if a1 = "decrypt" then decrypt_disk w argv s
  else if a1 = "repair" then repair_raid w s
  else if a1 = "key-management" then key_management w argv s
  else usage s

/-- The end of `main`: a handler that returns is followed by `return 0`. -/
def finish : Res Unit → Res Int
  | Res.ret _ s => Res.ret 0 s
  | Res.exit c s => Res.exit c s
  | Res.undef s => Res.undef s

/-- `main`, after which the process ends with the returned status. -/
def main (w : World) (argv : List String) : Res Int :=
  let s0 : State := { trace := [], logCalls := 0 }
  if w.euid ≠ 0 then
    Res.ret 1 (s0.emit (Event.stderr "You must be root to run this program.\n"))
  else if argv.length < 2 then usage s0
  else
    let p1 := command_exists w "mdadm" s0
    if p1.1 = false then
      handle_error w "Required commands mdadm or cryptsetup not found." p1.2
    else
      let p2 := command_exists w "cryptsetup" p1.2
      if p2.1 = false then
        handle_error w "Required commands mdadm or cryptsetup not found." p2.2
      else
        match argv[1]? with
        | none => Res.undef p2.2
        | some a1 => finish (dispatch w argv a1 p2.2)

/-! ## Observations on a run -/

/-- Exit status of the process; `none` after undefined behaviour. -/
def exitStatus (r : Res Int) : Option Int :=
  match r with
  | Res.ret c _ => some c
  | Res.exit c _ => some c
  | Res.undef _ => none

/-- The effects of a run. -/
def traceOf {α : Type} (r : Res α) : List Event := r.state.trace

/-- Command lines handed to `system(3)`, in order. -/
def systemCalls : List Event → List String
  | [] => []
  | Event.system c :: es => c :: systemCalls es
  | _ :: es => systemCalls es

/-- Lines appended to the log file, in order. -/
def logLines : List Event → List String
  | [] => []
  | Event.log l :: es => l :: logLines es
  | _ :: es => logLines es

/-- Texts written to standard error, in order. -/
def stderrTexts : List Event → List String
  | [] => []
  | Event.stderr t :: es => t :: stderrTexts es
  | _ :: es => stderrTexts es

/-- Texts written to standard output, in order. -/
def stdoutTexts : List Event → List String
  | [] => []
  | Event.stdout t :: es => t :: stdoutTexts es
  | _ :: es => stdoutTexts es

/-! ## Vocabulary of the statements -/

/-- The state of `main` once both availability probes have run. -/
def probedState : State :=
  { trace := [Event.system (probeCmd "mdadm"), Event.system (probeCmd "cryptsetup")],
    logCalls := 0 }

/-- Both availability probes report their tool as found. -/
def ToolsPresent (w : World) : Prop :=
  w.system (probeCmd "mdadm") = 0 ∧ w.system (probeCmd "cryptsetup") = 0

/-- The log file can be opened whenever the program tries. -/
def LogWritable (w : World) : Prop := ∀ k, w.fopen k = true

/-- The run performs the two probes and then hands exactly `cmd` to `system(3)`. -/
def RunsExactly (w : World) (argv : List String) (cmd : String) : Prop :=
  systemCalls (traceOf (main w argv)) = [probeCmd "mdadm", probeCmd "cryptsetup", cmd]

instance (w : World) : Decidable (ToolsPresent w) := by
  unfold ToolsPresent; infer_instance

instance (w : World) (argv : List String) (cmd : String) :
    Decidable (RunsExactly w argv cmd) := by
  unfold RunsExactly; infer_instance

/-- The first 255 bytes of a text. -/
def first255 (t : String) : String := String.mk (t.data.take 255)

/-- Every trailing argument preceded by one space, in order. -/
def joinArgs : List String → String
  | [] => ""
  | a :: rest => " " ++ a ++ joinArgs rest

/-- A world used for concrete runs: root, every command succeeds, the log
file opens, the clock shows 2026-10-30 10:05:07. -/
def demoWorld : World :=
  { euid := 0, system := fun _ => 0, fopen := fun _ => true,
    localtime := fun _ => { tm_year := 126, tm_mon := 9, tm_mday := 30,
                            tm_hour := 10, tm_min := 5, tm_sec := 7 } }

/-- The demonstration world for an unprivileged caller (uid 1000). -/
def userWorld : World := { demoWorld with euid := 1000 }

/-- The demonstration world with a log file that cannot be opened. -/
def noLogWorld : World := { demoWorld with fopen := fun _ => false }

/-- The demonstration world in which `mdadm` is not found by the probe. -/
def noMdadmWorld : World :=
  { demoWorld with system := fun c => if c = probeCmd "mdadm" then 256 else 0 }

/-- The demonstration world with `mdadm` not found and a log file that cannot
be opened. -/
def noMdadmNoLogWorld : World := { noMdadmWorld with fopen := fun _ => false }

/-- The fixed part of the command line of `create`. -/
def createBase (device level count : String) : String :=
  "mdadm --create " ++ device ++ " --level=" ++ level ++ " --raid-devices=" ++ count

/-- The eight subcommand names compared by `main`. -/
def subcommands : List String :=
  ["create", "add", "remove", "status", "encrypt", "decrypt", "repair", "key-management"]

/-- The `INFO` message of each subcommand. -/
def infoText (sub : String) : String :=
  if sub = "create" then "Creating RAID array"
  else if sub = "add" then "Adding disk to RAID array"
  else if sub = "remove" then "Removing disk from RAID array"
  else if sub = "status" then "Checking RAID status"
  else if sub = "encrypt" then "Encrypting disk"
  else if sub = "decrypt" then "Decrypting disk"
  else if sub = "repair" then "Repairing RAID array"
  else "Managing encryption key"

/-- The failure message of each subcommand. -/
def failureText (sub : String) : String :=
  if sub = "create" then "Failed to create RAID array"
  else if sub = "add" then "Failed to add disk to RAID array"
  else if sub = "remove" then "Failed to remove disk from RAID array"
  else if sub = "status" then "Failed to check RAID status"
  else if sub = "encrypt" then "Failed to encrypt disk"
  else if sub = "decrypt" then "Failed to decrypt disk"
  else if sub = "repair" then "Failed to repair RAID array"
  else "Failed to manage encryption key"

/-- The argument vector names a subcommand and passes its handler's checks:
`create` has `argc ≥ 6` (at least one trailing argument), `add` and `remove`
have two arguments, `status`, `encrypt` and `decrypt` one, `key-management` a
device and the operation `add` or `remove`. -/
def ValidArgs (argv : List String) : Prop :=
  match argv[1]? with
  | none => False
  | some sub =>
    if sub = "create" then 6 ≤ argv.length
    else if sub = "add" ∨ sub = "remove" then 4 ≤ argv.length
    else if sub = "status" ∨ sub = "encrypt" ∨ sub = "decrypt" then 3 ≤ argv.length
    else if sub = "repair" then True
    else if sub = "key-management" then
      4 ≤ argv.length ∧ (argv[3]? = some "add" ∨ argv[3]? = some "remove")
    else False

instance (argv : List String) : Decidable (ValidArgs argv) := by
  unfold ValidArgs; split <;> infer_instance

/-- The text that `create` is meant to hand to `system(3)`: the fixed part made
of `argv[2]`, `argv[3]`, `argv[4]`, then every argument from `argv[5]` on, each
preceded by one space. -/
def createLine (argv : List String) : String :=
  createBase (argv.getD 2 "") (argv.getD 3 "") (argv.getD 4 "") ++ joinArgs (argv.drop 5)

/-- For `create`, the whole command line and its terminator fit the 1024-byte
array `cmd`. -/
def CreateFits (argv : List String) : Prop :=
  argv[1]? = some "create" → (createLine argv).length + 1 ≤ 1024

instance (argv : List String) : Decidable (CreateFits argv) := by
  unfold CreateFits; infer_instance

/-- A required positional argument is missing (for `create`: the device, the
level, the count or the first trailing device, `argc < 6`), or `key-management`
is given an operation other than `add` and `remove`. -/
def MissingArgs (argv : List String) : Prop :=
  match argv[1]? with
  | none => False
  | some sub =>
    if sub = "create" then argv.length < 6
    else if sub = "add" ∨ sub = "remove" then argv.length < 4
    else if sub = "status" ∨ sub = "encrypt" ∨ sub = "decrypt" then argv.length < 3
    else if sub = "key-management" then
      argv.length < 4 ∨ (argv[3]? ≠ some "add" ∧ argv[3]? ≠ some "remove")
    else False

instance (argv : List String) : Decidable (MissingArgs argv) := by
  unfold MissingArgs; split <;> infer_instance

/-- The world in which every tool is found and every other command fails
with wait status 256 (exit code 1). -/
def failingWorld : World :=
  { demoWorld with
    system := fun c =>
      if c = probeCmd "mdadm" ∨ c = probeCmd "cryptsetup" then 0 else 256 }

/-- The last `k` decimal digits of `n`, most significant first. -/
def fixedDigits : Nat → Nat → List Char
  | 0, _ => []
  | k + 1, n => fixedDigits k (n / 10) ++ [digitChar (n % 10)]

/-- A number below 100 written with exactly two decimal digits. -/
def twoDigits (n : Nat) : String :=
  String.mk [digitChar (n / 10 % 10), digitChar (n % 10)]

/-- A number below 10000 written with exactly four decimal digits. -/
def fourDigits (n : Nat) : String :=
  String.mk [digitChar (n / 1000 % 10), digitChar (n / 100 % 10), digitChar (n / 10 % 10),
    digitChar (n % 10)]

/-- The timestamp `YYYY-MM-DD HH:MM:SS` of a broken-down time: full year,
month counted from 1, day, hour, minute, second. -/
def timestamp (t : Tm) : String :=
  fourDigits (t.tm_year + 1900).toNat ++ "-" ++ twoDigits (t.tm_mon + 1).toNat ++ "-" ++
    twoDigits t.tm_mday.toNat ++ " " ++ twoDigits t.tm_hour.toNat ++ ":" ++
    twoDigits t.tm_min.toNat ++ ":" ++ twoDigits t.tm_sec.toNat

/-- The text has the shape `dddd-dd-dd dd:dd:dd`, every `d` a decimal digit. -/
def isTimestamp (s : String) : Bool :=
  match s.data with
  | [y1, y2, y3, y4, c1, m1, m2, c2, d1, d2, c3, h1, h2, c4, n1, n2, c5, s1, s2] =>
    y1.isDigit && y2.isDigit && y3.isDigit && y4.isDigit && c1 == '-' &&
    m1.isDigit && m2.isDigit && c2 == '-' && d1.isDigit && d2.isDigit && c3 == ' ' &&
    h1.isDigit && h2.isDigit && c4 == ':' && n1.isDigit && n2.isDigit && c5 == ':' &&
    s1.isDigit && s2.isDigit
  | _ => false

/-- The fields of a broken-down time are in their calendar ranges and the
full year is between 0 and 9999. -/
def InCalendarRange (t : Tm) : Prop :=
  (0 ≤ t.tm_year + 1900 ∧ t.tm_year + 1900 ≤ 9999) ∧ (0 ≤ t.tm_mon ∧ t.tm_mon ≤ 11) ∧
  (1 ≤ t.tm_mday ∧ t.tm_mday ≤ 31) ∧ (0 ≤ t.tm_hour ∧ t.tm_hour ≤ 23) ∧
  (0 ≤ t.tm_min ∧ t.tm_min ≤ 59) ∧ (0 ≤ t.tm_sec ∧ t.tm_sec ≤ 60)

instance (t : Tm) : Decidable (InCalendarRange t) := by
  unfold InCalendarRange; infer_instance

/-- The text contains no newline. -/
def NoNewline (s : String) : Prop := '\n' ∉ s.data

instance (s : String) : Decidable (NoNewline s) := by
  unfold NoNewline; infer_instance

/-- Every log line recorded in the state was produced by the `fprintf` of
`log_message` with level `INFO` or `ERROR` and a message without newline. -/
def Logged (w : World) (s : State) : Prop :=
  ∀ line ∈ logLines s.trace, ∃ k level message,
    (level = "INFO" ∨ level = "ERROR") ∧ NoNewline message ∧
    line = logLine (w.localtime k) level message

/-- An argument of 1100 bytes. -/
def hugeArg : String := String.mk (List.replicate 1100 'a')

/-- An argument of 300 bytes. -/
def longArg : String := String.mk (List.replicate 300 'a')

/-! ## Basic facts about traces and the building blocks -/

@[simp] theorem systemCalls_append (a b : List Event) :
    systemCalls (a ++ b) = systemCalls a ++ systemCalls b := by
  induction a with
  | nil => rfl
  | cons e es ih => cases e <;> simp [systemCalls, ih]

@[simp] theorem logLines_append (a b : List Event) :
    logLines (a ++ b) = logLines a ++ logLines b := by
  induction a with
  | nil => rfl
  | cons e es ih => cases e <;> simp [logLines, ih]

@[simp] theorem stderrTexts_append (a b : List Event) :
    stderrTexts (a ++ b) = stderrTexts a ++ stderrTexts b := by
  induction a with
  | nil => rfl
  | cons e es ih => cases e <;> simp [stderrTexts, ih]

@[simp] theorem stdoutTexts_append (a b : List Event) :
    stdoutTexts (a ++ b) = stdoutTexts a ++ stdoutTexts b := by
  induction a with
  | nil => rfl
  | cons e es ih => cases e <;> simp [stdoutTexts, ih]

theorem snprintf_of_fits (size : Nat) (full : String) (h : full.length < size) :
    snprintf size full = full := by
  cases full with
  | mk l =>
    simp only [String.length] at h
    simp only [snprintf]
    congr 1
    exact List.take_of_length_le (by omega)

theorem first255_of_fits (t : String) (h : t.length ≤ 255) : first255 t = t := by
  cases t with
  | mk l =>
    simp only [String.length] at h
    simp only [first255]
    congr 1
    exact List.take_of_length_le h

theorem snprintf_256 (t : String) : snprintf 256 t = first255 t := rfl

theorem log_message_trace (w : World) (level message : String) (s : State) :
    (log_message w level message s).trace =
      s.trace ++ (if w.fopen s.logCalls = true
        then [Event.log (logLine (w.localtime s.logCalls) level message)] else []) := by
  unfold log_message
  split <;> simp

@[simp] theorem log_message_logCalls (w : World) (level message : String) (s : State) :
    (log_message w level message s).logCalls = s.logCalls + 1 := by
  unfold log_message
  split <;> rfl

theorem handle_error_eq {α : Type} (w : World) (message : String) (s : State) :
    (handle_error w message s : Res α) =
      Res.exit 1 ((log_message w "ERROR" message
        (s.emit (Event.stderr ("Error: " ++ message ++ "\n")))).emit (Event.stdout usageText)) :=
  rfl

theorem logAndRun_eq (w : World) (info cmd failure : String) (s : State) :
    logAndRun w info cmd failure s =
      if w.system cmd = 0 then
        Res.ret () ((log_message w "INFO" info s).emit (Event.system cmd))
      else
        handle_error w failure ((log_message w "INFO" info s).emit (Event.system cmd)) := by
  unfold logAndRun callSystem
  by_cases h : w.system cmd = 0 <;> simp [h]

theorem logAndRun_systemCalls (w : World) (info cmd failure : String) (s : State) :
    systemCalls (traceOf (logAndRun w info cmd failure s)) = systemCalls s.trace ++ [cmd] := by
  rw [logAndRun_eq]
  by_cases h : w.system cmd = 0 <;>
    by_cases h0 : w.fopen s.logCalls = true <;>
    by_cases h1 : w.fopen (s.logCalls + 1) = true <;>
    simp [h, h0, h1, handle_error_eq, traceOf, Res.state, State.emit, log_message_trace,
      systemCalls]

/-- A privileged run with both tools present and a subcommand reaches the
dispatcher in the state left by the two probes. -/
theorem main_dispatch (w : World) (hroot : w.euid = 0) (htools : ToolsPresent w)
    (p a1 : String) (rest : List String) :
    main w (p :: a1 :: rest) = finish (dispatch w (p :: a1 :: rest) a1 probedState) := by
  obtain ⟨h1, h2⟩ := htools
  simp [main, hroot, command_exists, callSystem, h1, h2, State.emit, probedState]

theorem traceOf_finish (r : Res Unit) : traceOf (finish r) = traceOf r := by
  cases r <;> rfl


/-- C1 (amended). In a privileged run with both tools present, each fixed-arity subcommand
hands exactly one command line to `system(3)` after the two probes: the
template of the table cut to its first 255 bytes, which is the template itself
whenever the template has at most 255 bytes; `repair` needs no positional
argument and always runs `mdadm --assemble --scan`. -/
theorem fixed_arity_commands (w : World) (hroot : w.euid = 0) (htools : ToolsPresent w) :
    (∀ T : String, T.length ≤ 255 → first255 T = T) ∧
    (∀ p d t rest, RunsExactly w (p :: "add" :: d :: t :: rest)
      (first255 ("mdadm --add " ++ d ++ " " ++ t))) ∧
    (∀ p d t rest, RunsExactly w (p :: "remove" :: d :: t :: rest)
      (first255 ("mdadm --remove " ++ d ++ " " ++ t))) ∧
    (∀ p d rest, RunsExactly w (p :: "status" :: d :: rest)
      (first255 ("mdadm --detail " ++ d))) ∧
    (∀ p d rest, RunsExactly w (p :: "encrypt" :: d :: rest)
      (first255 ("cryptsetup luksFormat " ++ d))) ∧
    (∀ p d rest, RunsExactly w (p :: "decrypt" :: d :: rest)
      (first255 ("cryptsetup luksClose " ++ d))) ∧
    (∀ p d rest, RunsExactly w (p :: "key-management" :: d :: "add" :: rest)
      (first255 ("cryptsetup luksAddKey " ++ d))) ∧
    (∀ p d rest, RunsExactly w (p :: "key-management" :: d :: "remove" :: rest)
      (first255 ("cryptsetup luksRemoveKey " ++ d))) ∧
    (∀ p rest, RunsExactly w (p :: "repair" :: rest) "mdadm --assemble --scan") := by
  refine ⟨first255_of_fits, ?_, ?_, ?_, ?_, ?_, ?_, ?_, ?_⟩ <;> intros <;>
    simp [RunsExactly, main_dispatch w hroot htools, traceOf_finish, dispatch, add_disk,
      remove_disk, status_raid, encrypt_disk, decrypt_disk, key_management, repair_raid,
      logAndRun_systemCalls, probedState, systemCalls, snprintf_256]

/-- C1 witness: `add /dev/md0 /dev/sdb1` in the demonstration world. -/
theorem fixed_arity_commands_witness :
    demoWorld.euid = 0 ∧ ToolsPresent demoWorld ∧
    RunsExactly demoWorld ["bioctl", "add", "/dev/md0", "/dev/sdb1"]
      "mdadm --add /dev/md0 /dev/sdb1" := by
  refine ⟨rfl, ⟨rfl, rfl⟩, ?_⟩
  have h := (fixed_arity_commands demoWorld rfl ⟨rfl, rfl⟩).2.1 "bioctl" "/dev/md0" "/dev/sdb1" []
  exact h

set_option maxRecDepth 100000 in
/-- C1 counterexample: with a 300-byte device name, `status` does not run the
template `mdadm --detail <device>`; it runs a shorter command line. -/
theorem fixed_arity_long_argument :
    demoWorld.euid = 0 ∧ ToolsPresent demoWorld ∧
    ¬ RunsExactly demoWorld ["bioctl", "status", longArg] ("mdadm --detail " ++ longArg) ∧
    RunsExactly demoWorld ["bioctl", "status", longArg]
      ("mdadm --detail " ++ String.mk (List.replicate 240 'a')) := by
  refine ⟨rfl, ⟨rfl, rfl⟩, ?_, ?_⟩
  · decide
  · decide


/-! ## The command line of `create` -/

theorem appendArgs_of_fits (size : Nat) (args : List String) (cmd : String)
    (h : (cmd ++ joinArgs args).length < size) :
    appendArgs size cmd args = some (cmd ++ joinArgs args) := by
  induction args generalizing cmd with
  | nil =>
    cases cmd
    simp [appendArgs, joinArgs]
  | cons a rest ih =>
    simp only [joinArgs, String.length_append] at h
    have h1 : cmd.length + " ".length < size := by
      have : " ".length = 1 := rfl
      omega
    have h2 : (cmd ++ " ").length + a.length < size := by
      simp only [String.length_append]
      omega
    have h3 : (cmd ++ " " ++ a ++ joinArgs rest).length < size := by
      simp only [String.length_append]
      omega
    have e := ih _ h3
    simp only [String.append_assoc] at e
    simp only [appendArgs, strcat, h1, h2, if_true, joinArgs, String.append_assoc, e]

theorem createCmd_of_fits (p sub d l c : String) (trailing : List String)
    (h : (createBase d l c ++ joinArgs trailing).length < 1024) :
    createCmd (p :: sub :: d :: l :: c :: trailing) =
      some (createBase d l c ++ joinArgs trailing) := by
  have hb : (createBase d l c).length < 1024 := by
    simp only [String.length_append] at h
    omega
  have hs : snprintf 1024 (createBase d l c) = createBase d l c := snprintf_of_fits _ _ hb
  unfold createBase at hs
  simp only [createCmd, List.getElem?_cons_succ, List.getElem?_cons_zero, List.drop_succ_cons,
    List.drop_zero, hs]
  exact appendArgs_of_fits 1024 trailing _ h

theorem create_runs_of_fits (w : World) (hroot : w.euid = 0) (htools : ToolsPresent w)
    (p d l c x : String) (xs : List String)
    (hfit : (createBase d l c ++ joinArgs (x :: xs)).length < 1024) :
    RunsExactly w (p :: "create" :: d :: l :: c :: x :: xs)
      (createBase d l c ++ joinArgs (x :: xs)) := by
  have hc := createCmd_of_fits p "create" d l c (x :: xs) hfit
  have hlen : ¬ (xs.length + 1 + 1 + 1 + 1 + 1 + 1 < 6) := by omega
  simp [RunsExactly, main_dispatch w hroot htools, traceOf_finish, dispatch, create_raid, hc,
    hlen, logAndRun_systemCalls, probedState, systemCalls]

/-- C3. For every device, level, count and non-empty list of trailing
arguments whose command line fits the 1024-byte array, `create` builds the
fixed part followed by every trailing argument in order, each preceded by one
space, and that is the one command line the run executes after the probes. -/
theorem create_appends_trailing (w : World) (hroot : w.euid = 0) (htools : ToolsPresent w)
    (p d l c x : String) (xs : List String)
    (hfit : ("mdadm --create " ++ d ++ " --level=" ++ l ++ " --raid-devices=" ++ c ++
      joinArgs (x :: xs)).length + 1 ≤ 1024) :
    createCmd (p :: "create" :: d :: l :: c :: x :: xs) =
      some ("mdadm --create " ++ d ++ " --level=" ++ l ++ " --raid-devices=" ++ c ++
        joinArgs (x :: xs)) ∧
    RunsExactly w (p :: "create" :: d :: l :: c :: x :: xs)
      ("mdadm --create " ++ d ++ " --level=" ++ l ++ " --raid-devices=" ++ c ++
        joinArgs (x :: xs)) := by
  have hfit2 : (createBase d l c ++ joinArgs (x :: xs)).length < 1024 := by
    unfold createBase
    omega
  have hc := createCmd_of_fits p "create" d l c (x :: xs) hfit2
  have hr := create_runs_of_fits w hroot htools p d l c x xs hfit2
  unfold createBase at hc hr
  exact ⟨hc, hr⟩

/-- C3 witness: `create raid0 1 2 extra1 extra2`. -/
theorem create_appends_trailing_witness :
    demoWorld.euid = 0 ∧ ToolsPresent demoWorld ∧
    ("mdadm --create " ++ "raid0" ++ " --level=" ++ "1" ++ " --raid-devices=" ++ "2" ++
      joinArgs ["extra1", "extra2"]).length + 1 ≤ 1024 ∧
    createCmd ["bioctl", "create", "raid0", "1", "2", "extra1", "extra2"] =
      some "mdadm --create raid0 --level=1 --raid-devices=2 extra1 extra2" ∧
    RunsExactly demoWorld ["bioctl", "create", "raid0", "1", "2", "extra1", "extra2"]
      "mdadm --create raid0 --level=1 --raid-devices=2 extra1 extra2" :=
  ⟨rfl, ⟨rfl, rfl⟩, by decide,
    create_appends_trailing demoWorld rfl ⟨rfl, rfl⟩ "bioctl" "raid0" "1" "2" "extra1" ["extra2"]
      (by decide)⟩


/-- C2 (amended). In a privileged run with both tools present, `create` with a
device, a level, a count and no trailing device (argc = 5) takes the
missing-argument path: message `Missing arguments for create.`, status 1, no
command besides the probes. With one trailing device (argc = 6) whose command
line fits the array it runs exactly one command, the fixed part followed by
a space and the trailing device. -/
theorem create_minimum_arguments (w : World) (hroot : w.euid = 0) (htools : ToolsPresent w)
    (p d l c : String) :
    (exitStatus (main w [p, "create", d, l, c]) = some 1 ∧
      systemCalls (traceOf (main w [p, "create", d, l, c])) =
        [probeCmd "mdadm", probeCmd "cryptsetup"] ∧
      stderrTexts (traceOf (main w [p, "create", d, l, c])) =
        ["Error: Missing arguments for create.\n"]) ∧
    (∀ x : String,
      ("mdadm --create " ++ d ++ " --level=" ++ l ++ " --raid-devices=" ++ c ++ " " ++ x).length
        + 1 ≤ 1024 →
      RunsExactly w [p, "create", d, l, c, x]
        ("mdadm --create " ++ d ++ " --level=" ++ l ++ " --raid-devices=" ++ c ++ " " ++ x)) := by
  constructor
  · by_cases h0 : w.fopen 0 = true <;>
      simp [main_dispatch w hroot htools, dispatch, create_raid, handle_error_eq, finish,
        exitStatus, traceOf, Res.state, State.emit, log_message_trace, probedState, systemCalls,
        stderrTexts, h0]
  · intro x hx
    have hj : joinArgs [x] = " " ++ x := by
      cases x
      simp [joinArgs]
    have h := create_runs_of_fits w hroot htools p d l c x []
      (by unfold createBase; rw [hj, ← String.append_assoc]; omega)
    unfold createBase at h
    rw [hj, ← String.append_assoc] at h
    exact h

/-- C2 witness: `create /dev/md0 1 2` and `create /dev/md0 1 2 /dev/sdb1`. -/
theorem create_minimum_arguments_witness :
    demoWorld.euid = 0 ∧ ToolsPresent demoWorld ∧
    exitStatus (main demoWorld ["bioctl", "create", "/dev/md0", "1", "2"]) = some 1 ∧
    RunsExactly demoWorld ["bioctl", "create", "/dev/md0", "1", "2", "/dev/sdb1"]
      "mdadm --create /dev/md0 --level=1 --raid-devices=2 /dev/sdb1" :=
  ⟨rfl, ⟨rfl, rfl⟩,
    (create_minimum_arguments demoWorld rfl ⟨rfl, rfl⟩ "bioctl" "/dev/md0" "1" "2").1.1,
    (create_minimum_arguments demoWorld rfl ⟨rfl, rfl⟩ "bioctl" "/dev/md0" "1" "2").2
      "/dev/sdb1" (by decide)⟩

/-- C2 counterexample: `create /dev/md0 1 2` (argc = 5) as root with both tools
present is not accepted; no `mdadm --create` command is run, the
missing-argument message is printed and the status is 1. -/
theorem create_argc_five_rejected :
    demoWorld.euid = 0 ∧ ToolsPresent demoWorld ∧
    ¬ RunsExactly demoWorld ["bioctl", "create", "/dev/md0", "1", "2"]
      "mdadm --create /dev/md0 --level=1 --raid-devices=2" ∧
    systemCalls (traceOf (main demoWorld ["bioctl", "create", "/dev/md0", "1", "2"])) =
      [probeCmd "mdadm", probeCmd "cryptsetup"] ∧
    stderrTexts (traceOf (main demoWorld ["bioctl", "create", "/dev/md0", "1", "2"])) =
      ["Error: Missing arguments for create.\n"] ∧
    exitStatus (main demoWorld ["bioctl", "create", "/dev/md0", "1", "2"]) = some 1 := by
  refine ⟨rfl, ⟨rfl, rfl⟩, ?_, ?_, ?_, ?_⟩ <;> decide

/-- C6. Whatever the arguments, an unprivileged run ends with status 1 after
writing one message to standard error and nothing else: no probe, no command,
no log line, no usage text. -/
theorem unprivileged_run (w : World) (argv : List String) (h : w.euid ≠ 0) :
    exitStatus (main w argv) = some 1 ∧
    traceOf (main w argv) = [Event.stderr "You must be root to run this program.\n"] ∧
    systemCalls (traceOf (main w argv)) = [] ∧
    logLines (traceOf (main w argv)) = [] ∧
    stdoutTexts (traceOf (main w argv)) = [] := by
  have hm : main w argv = Res.ret 1
      { trace := [Event.stderr "You must be root to run this program.\n"], logCalls := 0 } := by
    simp [main, h, State.emit]
  rw [hm]
  simp [exitStatus, traceOf, Res.state, systemCalls, logLines, stdoutTexts]

/-- C6 witness: uid 1000 asking for `status /dev/md0`. -/
theorem unprivileged_run_witness :
    userWorld.euid ≠ 0 ∧
    exitStatus (main userWorld ["bioctl", "status", "/dev/md0"]) = some 1 ∧
    traceOf (main userWorld ["bioctl", "status", "/dev/md0"]) =
      [Event.stderr "You must be root to run this program.\n"] :=
  ⟨by decide,
    (unprivileged_run userWorld ["bioctl", "status", "/dev/md0"] (by decide)).1,
    (unprivileged_run userWorld ["bioctl", "status", "/dev/md0"] (by decide)).2.1⟩

/-- C10. Two different argument vectors of `create`, one with the trailing
argument `a b` and one with the trailing arguments `a` and `b`, give the same
command line and, in every world, the same run; so the command line does not
determine the argument vector. -/
theorem create_not_injective :
    ["bioctl", "create", "/dev/md0", "1", "2", "a b"] ≠
      ["bioctl", "create", "/dev/md0", "1", "2", "a", "b"] ∧
    createCmd ["bioctl", "create", "/dev/md0", "1", "2", "a b"] =
      some "mdadm --create /dev/md0 --level=1 --raid-devices=2 a b" ∧
    createCmd ["bioctl", "create", "/dev/md0", "1", "2", "a", "b"] =
      some "mdadm --create /dev/md0 --level=1 --raid-devices=2 a b" ∧
    (∀ w : World, main w ["bioctl", "create", "/dev/md0", "1", "2", "a b"] =
      main w ["bioctl", "create", "/dev/md0", "1", "2", "a", "b"]) ∧
    RunsExactly demoWorld ["bioctl", "create", "/dev/md0", "1", "2", "a b"]
      "mdadm --create /dev/md0 --level=1 --raid-devices=2 a b" ∧
    ¬ Function.Injective createCmd := by
  have e1 : createCmd ["bioctl", "create", "/dev/md0", "1", "2", "a b"] =
      some "mdadm --create /dev/md0 --level=1 --raid-devices=2 a b" := by decide
  have e2 : createCmd ["bioctl", "create", "/dev/md0", "1", "2", "a", "b"] =
      some "mdadm --create /dev/md0 --level=1 --raid-devices=2 a b" := by decide
  refine ⟨by decide, e1, e2, ?_, by decide, ?_⟩
  · intro w
    simp [main, dispatch, create_raid, e1, e2]
  intro hinj
  have h : ["bioctl", "create", "/dev/md0", "1", "2", "a b"] =
      ["bioctl", "create", "/dev/md0", "1", "2", "a", "b"] := hinj (by decide)
  exact absurd h (by decide)


/-! ## Outcome of a command that is run -/

theorem finish_logAndRun (w : World) (hlog : LogWritable w) (info cmd failure : String) :
    systemCalls (traceOf (finish (logAndRun w info cmd failure probedState))) =
      [probeCmd "mdadm", probeCmd "cryptsetup", cmd] ∧
    (w.system cmd = 0 →
      exitStatus (finish (logAndRun w info cmd failure probedState)) = some 0 ∧
      logLines (traceOf (finish (logAndRun w info cmd failure probedState))) =
        [logLine (w.localtime 0) "INFO" info]) ∧
    (w.system cmd ≠ 0 →
      exitStatus (finish (logAndRun w info cmd failure probedState)) = some 1 ∧
      logLines (traceOf (finish (logAndRun w info cmd failure probedState))) =
        [logLine (w.localtime 0) "INFO" info, logLine (w.localtime 1) "ERROR" failure]) := by
  refine ⟨?_, ?_, ?_⟩
  · rw [traceOf_finish, logAndRun_systemCalls]
    simp [probedState, systemCalls]
  · intro h
    simp [logAndRun_eq, h, finish, exitStatus, traceOf, Res.state, State.emit,
      log_message_trace, hlog _, probedState, logLines]
  · intro h
    simp [logAndRun_eq, h, handle_error_eq, finish, exitStatus, traceOf, Res.state, State.emit,
      log_message_trace, hlog _, probedState, logLines]

theorem outcome_of_logAndRun (w : World) (hlog : LogWritable w) (r : Res Unit)
    (sub cmd : String)
    (hr : r = logAndRun w (infoText sub) cmd (failureText sub) probedState) :
    systemCalls (traceOf (finish r)) = [probeCmd "mdadm", probeCmd "cryptsetup", cmd] ∧
    (w.system cmd = 0 →
      exitStatus (finish r) = some 0 ∧
      logLines (traceOf (finish r)) = [logLine (w.localtime 0) "INFO" (infoText sub)]) ∧
    (w.system cmd ≠ 0 →
      exitStatus (finish r) = some 1 ∧
      logLines (traceOf (finish r)) =
        [logLine (w.localtime 0) "INFO" (infoText sub),
          logLine (w.localtime 1) "ERROR" (failureText sub)]) := by
  subst hr
  exact finish_logAndRun w hlog _ _ _

/-- C4 (amended). In a privileged run with both tools present, a log file that
opens, arguments that pass the handler's checks (`create` needs `argc ≥ 6`) and,
for `create`, a command line that fits the 1024-byte array, exactly one command
is run after the probes (for `create` the fixed part followed by the trailing
arguments) and its status decides the outcome: status 0 gives exit status 0
and the log gains exactly the subcommand's `INFO` line; any other status gives
exit status 1 and the log gains exactly the `INFO` line followed by one
`ERROR` line with the subcommand's failure message. -/
theorem outcome_follows_child (w : World) (argv : List String) (hroot : w.euid = 0)
    (htools : ToolsPresent w) (hlog : LogWritable w) (hvalid : ValidArgs argv)
    (hfit : CreateFits argv) :
    ∃ sub cmd, argv[1]? = some sub ∧ sub ∈ subcommands ∧
      (sub = "create" → cmd = createLine argv) ∧ RunsExactly w argv cmd ∧
      (w.system cmd = 0 →
        exitStatus (main w argv) = some 0 ∧
        logLines (traceOf (main w argv)) = [logLine (w.localtime 0) "INFO" (infoText sub)]) ∧
      (w.system cmd ≠ 0 →
        exitStatus (main w argv) = some 1 ∧
        logLines (traceOf (main w argv)) =
          [logLine (w.localtime 0) "INFO" (infoText sub),
            logLine (w.localtime 1) "ERROR" (failureText sub)]) := by
  match argv, hvalid with
  | [], hv => simp [ValidArgs] at hv
  | [_], hv => simp [ValidArgs] at hv
  | p :: sub :: rest, hv =>
    simp only [ValidArgs, List.getElem?_cons_succ, List.getElem?_cons_zero] at hv
    rw [main_dispatch w hroot htools]
    unfold RunsExactly
    rw [main_dispatch w hroot htools]
    refine ⟨sub, ?_⟩
    simp only [List.getElem?_cons_succ, List.getElem?_cons_zero, true_and]
    split_ifs at hv with h1 h2 h3 h4 h5
    · subst h1
      match rest, hv, hfit with
      | d :: l :: c :: x :: xs, _, hfit =>
        have hf := hfit rfl
        simp only [createLine, List.getD_cons_succ, List.getD_cons_zero, List.drop_succ_cons,
          List.drop_zero] at hf
        have hcmd := createCmd_of_fits p "create" d l c (x :: xs) (by omega)
        have hlen2 : ¬ ((p :: "create" :: d :: l :: c :: x :: xs).length < 6) := by
          simp only [List.length_cons]
          omega
        refine ⟨createBase d l c ++ joinArgs (x :: xs), by decide,
          fun _ => by simp [createLine], outcome_of_logAndRun w hlog _ _ _ ?_⟩
        simp only [dispatch, create_raid, hlen2, hcmd, if_true, if_false, infoText, failureText]
      | [], hv, _ => simp at hv
      | [_], hv, _ => simp at hv
      | [_, _], hv, _ => simp at hv
      | [_, _, _], hv, _ => simp at hv
    · rcases h2 with h | h <;> subst h
      · match rest, hv with
        | a :: b :: r, _ =>
          refine ⟨snprintf 256 ("mdadm --add " ++ a ++ " " ++ b), by decide, fun h => absurd h (by decide),
            outcome_of_logAndRun w hlog _ _ _ ?_⟩
          simp [dispatch, add_disk, infoText, failureText]
        | [], hv => simp at hv
        | [_], hv => simp at hv
      · match rest, hv with
        | a :: b :: r, _ =>
          refine ⟨snprintf 256 ("mdadm --remove " ++ a ++ " " ++ b), by decide, fun h => absurd h (by decide),
            outcome_of_logAndRun w hlog _ _ _ ?_⟩
          simp [dispatch, remove_disk, infoText, failureText]
        | [], hv => simp at hv
        | [_], hv => simp at hv
    · rcases h3 with h | h | h <;> subst h
      · match rest, hv with
        | a :: r, _ =>
          refine ⟨snprintf 256 ("mdadm --detail " ++ a), by decide, fun h => absurd h (by decide),
            outcome_of_logAndRun w hlog _ _ _ ?_⟩
          simp [dispatch, status_raid, infoText, failureText]
        | [], hv => simp at hv
      · match rest, hv with
        | a :: r, _ =>
          refine ⟨snprintf 256 ("cryptsetup luksFormat " ++ a), by decide, fun h => absurd h (by decide),
            outcome_of_logAndRun w hlog _ _ _ ?_⟩
          simp [dispatch, encrypt_disk, infoText, failureText]
        | [], hv => simp at hv
      · match rest, hv with
        | a :: r, _ =>
          refine ⟨snprintf 256 ("cryptsetup luksClose " ++ a), by decide, fun h => absurd h (by decide),
            outcome_of_logAndRun w hlog _ _ _ ?_⟩
          simp [dispatch, decrypt_disk, infoText, failureText]
        | [], hv => simp at hv
    · subst h4
      refine ⟨"mdadm --assemble --scan", by decide, fun h => absurd h (by decide),
            outcome_of_logAndRun w hlog _ _ _ ?_⟩
      simp [dispatch, repair_raid, infoText, failureText]
    · subst h5
      obtain ⟨hlen, hop⟩ := hv
      match rest, hlen, hop with
      | a :: b :: r, _, hop =>
        simp only [List.getElem?_cons_succ, List.getElem?_cons_zero, Option.some.injEq] at hop
        rcases hop with h | h <;> subst h
        · refine ⟨snprintf 256 ("cryptsetup luksAddKey " ++ a), by decide,
            fun h => absurd h (by decide), outcome_of_logAndRun w hlog _ _ _ ?_⟩
          simp [dispatch, key_management, infoText, failureText]
        · refine ⟨snprintf 256 ("cryptsetup luksRemoveKey " ++ a), by decide,
            fun h => absurd h (by decide), outcome_of_logAndRun w hlog _ _ _ ?_⟩
          simp [dispatch, key_management, infoText, failureText]
      | [], hlen, _ => simp at hlen
      | [_], hlen, _ => simp at hlen

/-- A concrete failing child: `status /dev/md0` when `mdadm --detail` fails. -/
theorem status_child_fails_example :
    exitStatus (main failingWorld ["bioctl", "status", "/dev/md0"]) = some 1 ∧
    logLines (traceOf (main failingWorld ["bioctl", "status", "/dev/md0"])) =
      ["2026-10-30 10:05:07 [INFO] Checking RAID status\n",
        "2026-10-30 10:05:07 [ERROR] Failed to check RAID status\n"] := by
  constructor <;> decide

/-- C4 witness: `create /dev/md0 1 2 /dev/sdb1 /dev/sdc1` with a child that
succeeds. -/
theorem outcome_follows_child_witness :
    demoWorld.euid = 0 ∧ ToolsPresent demoWorld ∧ LogWritable demoWorld ∧
    ValidArgs ["bioctl", "create", "/dev/md0", "1", "2", "/dev/sdb1", "/dev/sdc1"] ∧
    CreateFits ["bioctl", "create", "/dev/md0", "1", "2", "/dev/sdb1", "/dev/sdc1"] ∧
    ∃ sub cmd,
      ["bioctl", "create", "/dev/md0", "1", "2", "/dev/sdb1", "/dev/sdc1"][1]? = some sub ∧
      sub ∈ subcommands ∧
      (sub = "create" →
        cmd = createLine ["bioctl", "create", "/dev/md0", "1", "2", "/dev/sdb1", "/dev/sdc1"]) ∧
      RunsExactly demoWorld ["bioctl", "create", "/dev/md0", "1", "2", "/dev/sdb1", "/dev/sdc1"]
        cmd ∧
      (demoWorld.system cmd = 0 →
        exitStatus (main demoWorld
          ["bioctl", "create", "/dev/md0", "1", "2", "/dev/sdb1", "/dev/sdc1"]) = some 0 ∧
        logLines (traceOf (main demoWorld
          ["bioctl", "create", "/dev/md0", "1", "2", "/dev/sdb1", "/dev/sdc1"])) =
          [logLine (demoWorld.localtime 0) "INFO" (infoText sub)]) ∧
      (demoWorld.system cmd ≠ 0 →
        exitStatus (main demoWorld
          ["bioctl", "create", "/dev/md0", "1", "2", "/dev/sdb1", "/dev/sdc1"]) = some 1 ∧
        logLines (traceOf (main demoWorld
          ["bioctl", "create", "/dev/md0", "1", "2", "/dev/sdb1", "/dev/sdc1"])) =
          [logLine (demoWorld.localtime 0) "INFO" (infoText sub),
            logLine (demoWorld.localtime 1) "ERROR" (failureText sub)]) :=
  ⟨rfl, ⟨rfl, rfl⟩, fun _ => rfl, by decide, by decide,
    outcome_follows_child demoWorld
      ["bioctl", "create", "/dev/md0", "1", "2", "/dev/sdb1", "/dev/sdc1"] rfl ⟨rfl, rfl⟩
      (fun _ => rfl) (by decide) (by decide)⟩

set_option maxRecDepth 1000000 in
/-- C4 counterexample. As root, with both tools present and a log file that
opens: (1) `create /dev/md0 1 2 <1100 bytes>` passes the check `argc ≥ 6`, yet
the `strcat` loop overruns the 1024-byte array; no command besides the probes
is run, no log line is written and the run has no defined exit status, so no
child decides the outcome. (2) `create /dev/md0 1 2`, with device, level and
count, runs no child either: it exits with status 1 and the log gains an
`ERROR` line only. -/
theorem outcome_without_child :
    demoWorld.euid = 0 ∧ ToolsPresent demoWorld ∧ LogWritable demoWorld ∧
    ValidArgs ["bioctl", "create", "/dev/md0", "1", "2", hugeArg] ∧
    ¬ CreateFits ["bioctl", "create", "/dev/md0", "1", "2", hugeArg] ∧
    createCmd ["bioctl", "create", "/dev/md0", "1", "2", hugeArg] = none ∧
    exitStatus (main demoWorld ["bioctl", "create", "/dev/md0", "1", "2", hugeArg]) = none ∧
    systemCalls (traceOf (main demoWorld ["bioctl", "create", "/dev/md0", "1", "2", hugeArg])) =
      [probeCmd "mdadm", probeCmd "cryptsetup"] ∧
    logLines (traceOf (main demoWorld ["bioctl", "create", "/dev/md0", "1", "2", hugeArg])) =
      [] ∧
    (¬ ∃ cmd, RunsExactly demoWorld ["bioctl", "create", "/dev/md0", "1", "2", hugeArg] cmd) ∧
    exitStatus (main demoWorld ["bioctl", "create", "/dev/md0", "1", "2"]) = some 1 ∧
    logLines (traceOf (main demoWorld ["bioctl", "create", "/dev/md0", "1", "2"])) =
      ["2026-10-30 10:05:07 [ERROR] Missing arguments for create.\n"] ∧
    (¬ ∃ cmd, RunsExactly demoWorld ["bioctl", "create", "/dev/md0", "1", "2"] cmd) := by
  have h1 : systemCalls (traceOf (main demoWorld
      ["bioctl", "create", "/dev/md0", "1", "2", hugeArg])) =
      [probeCmd "mdadm", probeCmd "cryptsetup"] := by decide
  have h2 : systemCalls (traceOf (main demoWorld ["bioctl", "create", "/dev/md0", "1", "2"])) =
      [probeCmd "mdadm", probeCmd "cryptsetup"] := by decide
  refine ⟨rfl, ⟨rfl, rfl⟩, fun _ => rfl, by decide, by decide, by decide, by decide, h1,
    by decide, ?_, by decide, by decide, ?_⟩
  · rintro ⟨cmd, h⟩
    unfold RunsExactly at h
    rw [h1] at h
    simp at h
  · rintro ⟨cmd, h⟩
    unfold RunsExactly at h
    rw [h2] at h
    simp at h

/-! ## Error paths -/

theorem finish_handle_error (w : World) (message : String) (r : Res Unit)
    (hr : r = handle_error w message probedState) :
    exitStatus (finish r) = some 1 ∧
    systemCalls (traceOf (finish r)) = [probeCmd "mdadm", probeCmd "cryptsetup"] ∧
    stderrTexts (traceOf (finish r)) = ["Error: " ++ message ++ "\n"] ∧
    logLines (traceOf (finish r)) =
      (if w.fopen 0 = true then [logLine (w.localtime 0) "ERROR" message] else []) := by
  subst hr
  by_cases h0 : w.fopen 0 = true <;>
    simp [handle_error_eq, finish, exitStatus, traceOf, Res.state, State.emit,
      log_message_trace, probedState, systemCalls, stderrTexts, logLines, h0]

/-- C5 (amended). In a privileged run with both tools present in which a
required positional argument is missing, or `key-management` gets an operation
other than `add` and `remove`, the status is 1, nothing but the two probes is
handed to `system(3)`, one message goes to standard error, and the log gains
exactly one `ERROR` line with that message when the log file can be opened and
nothing when it cannot; no `INFO` line is written. -/
theorem missing_arguments (w : World) (argv : List String) (hroot : w.euid = 0)
    (htools : ToolsPresent w) (hmiss : MissingArgs argv) :
    exitStatus (main w argv) = some 1 ∧
    systemCalls (traceOf (main w argv)) = [probeCmd "mdadm", probeCmd "cryptsetup"] ∧
    ∃ message : String,
      stderrTexts (traceOf (main w argv)) = ["Error: " ++ message ++ "\n"] ∧
      logLines (traceOf (main w argv)) =
        (if w.fopen 0 = true then [logLine (w.localtime 0) "ERROR" message] else []) := by
  match argv, hmiss with
  | [], hv => simp [MissingArgs] at hv
  | [_], hv => simp [MissingArgs] at hv
  | p :: sub :: rest, hv =>
    simp only [MissingArgs, List.getElem?_cons_succ, List.getElem?_cons_zero] at hv
    rw [main_dispatch w hroot htools]
    have key : ∀ message : String,
        dispatch w (p :: sub :: rest) sub probedState = handle_error w message probedState →
        exitStatus (finish (dispatch w (p :: sub :: rest) sub probedState)) = some 1 ∧
        systemCalls (traceOf (finish (dispatch w (p :: sub :: rest) sub probedState))) =
          [probeCmd "mdadm", probeCmd "cryptsetup"] ∧
        ∃ message : String,
          stderrTexts (traceOf (finish (dispatch w (p :: sub :: rest) sub probedState))) =
            ["Error: " ++ message ++ "\n"] ∧
          logLines (traceOf (finish (dispatch w (p :: sub :: rest) sub probedState))) =
            (if w.fopen 0 = true then [logLine (w.localtime 0) "ERROR" message] else []) := by
      intro message h
      have := finish_handle_error w message _ h
      exact ⟨this.1, this.2.1, message, this.2.2⟩
    split_ifs at hv with h1 h2 h3 h4
    · subst h1
      exact key "Missing arguments for create." (by simp only [dispatch, create_raid, hv, if_true])
    · rcases h2 with h | h <;> subst h
      · match rest, hv with
        | [], _ => exact key "Missing arguments for add." (by simp [dispatch, add_disk])
        | [_], _ => exact key "Missing arguments for add." (by simp [dispatch, add_disk])
        | _ :: _ :: _, hv => simp only [List.length_cons] at hv; omega
      · match rest, hv with
        | [], _ => exact key "Missing arguments for remove." (by simp [dispatch, remove_disk])
        | [_], _ => exact key "Missing arguments for remove." (by simp [dispatch, remove_disk])
        | _ :: _ :: _, hv => simp only [List.length_cons] at hv; omega
    · rcases h3 with h | h | h <;> subst h
      · match rest, hv with
        | [], _ => exact key "Missing RAID device for status." (by simp [dispatch, status_raid])
        | _ :: _, hv => simp only [List.length_cons] at hv; omega
      · match rest, hv with
        | [], _ => exact key "Missing disk for encryption." (by simp [dispatch, encrypt_disk])
        | _ :: _, hv => simp only [List.length_cons] at hv; omega
      · match rest, hv with
        | [], _ => exact key "Missing encrypted disk name." (by simp [dispatch, decrypt_disk])
        | _ :: _, hv => simp only [List.length_cons] at hv; omega
    · subst h4
      match rest, hv with
      | [], _ =>
        exact key "Missing arguments for key management." (by simp [dispatch, key_management])
      | [_], _ =>
        exact key "Missing arguments for key management." (by simp [dispatch, key_management])
      | a :: b :: r, hv =>
        simp only [List.getElem?_cons_succ, List.getElem?_cons_zero, ne_eq,
          Option.some.injEq] at hv
        rcases hv with hv | ⟨hadd, hrem⟩
        · simp only [List.length_cons] at hv; omega
        · exact key "Unknown key management operation"
            (by simp [dispatch, key_management, hadd, hrem])

/-- C5 witness: `key-management /dev/sdb1 rotate`, and `create /dev/md0 1 2`
without a trailing device. -/
theorem missing_arguments_witness :
    demoWorld.euid = 0 ∧ ToolsPresent demoWorld ∧
    MissingArgs ["bioctl", "create", "/dev/md0", "1", "2"] ∧
    exitStatus (main demoWorld ["bioctl", "create", "/dev/md0", "1", "2"]) = some 1 ∧
    MissingArgs ["bioctl", "key-management", "/dev/sdb1", "rotate"] ∧
    exitStatus (main demoWorld ["bioctl", "key-management", "/dev/sdb1", "rotate"]) = some 1 ∧
    systemCalls (traceOf (main demoWorld ["bioctl", "key-management", "/dev/sdb1", "rotate"])) =
      [probeCmd "mdadm", probeCmd "cryptsetup"] :=
  ⟨rfl, ⟨rfl, rfl⟩, by decide,
    (missing_arguments demoWorld ["bioctl", "create", "/dev/md0", "1", "2"] rfl
      ⟨rfl, rfl⟩ (by decide)).1,
    by decide,
    (missing_arguments demoWorld ["bioctl", "key-management", "/dev/sdb1", "rotate"] rfl
      ⟨rfl, rfl⟩ (by decide)).1,
    (missing_arguments demoWorld ["bioctl", "key-management", "/dev/sdb1", "rotate"] rfl
      ⟨rfl, rfl⟩ (by decide)).2.1⟩

/-- C5 counterexample: `status` without a device, as root with both tools
present, when the log file cannot be opened: the run ends with status 1 and
writes no log line at all, so no `ERROR` entry. -/
theorem missing_arguments_unwritable_log :
    noLogWorld.euid = 0 ∧ ToolsPresent noLogWorld ∧ MissingArgs ["bioctl", "status"] ∧
    exitStatus (main noLogWorld ["bioctl", "status"]) = some 1 ∧
    logLines (traceOf (main noLogWorld ["bioctl", "status"])) = [] := by
  refine ⟨rfl, ⟨rfl, rfl⟩, ?_, ?_, ?_⟩ <;> decide


/-- C7 (amended). In a privileged run that names a subcommand, if either probe
reports its tool as not found (any non-zero result), the status is 1, nothing
but probes is handed to `system(3)`, the message goes to standard error, and
the log gains exactly one `ERROR` line when the log file can be opened and
nothing when it cannot; no `INFO` line is written. -/
theorem tools_missing (w : World) (argv : List String) (hroot : w.euid = 0)
    (hargc : 2 ≤ argv.length) (hmiss : ¬ ToolsPresent w) :
    exitStatus (main w argv) = some 1 ∧
    (systemCalls (traceOf (main w argv)) = [probeCmd "mdadm"] ∨
      systemCalls (traceOf (main w argv)) = [probeCmd "mdadm", probeCmd "cryptsetup"]) ∧
    stderrTexts (traceOf (main w argv)) =
      ["Error: Required commands mdadm or cryptsetup not found.\n"] ∧
    logLines (traceOf (main w argv)) =
      (if w.fopen 0 = true then
        [logLine (w.localtime 0) "ERROR" "Required commands mdadm or cryptsetup not found."]
      else []) := by
  have hlen : ¬ (argv.length < 2) := by omega
  by_cases h1 : w.system (probeCmd "mdadm") = 0
  · have h2 : ¬ (w.system (probeCmd "cryptsetup") = 0) := fun h => hmiss ⟨h1, h⟩
    by_cases h0 : w.fopen 0 = true <;>
      simp [main, hroot, hlen, command_exists, callSystem, h1, h2, handle_error_eq, exitStatus,
        traceOf, Res.state, State.emit, log_message_trace, systemCalls, stderrTexts, logLines, h0]
  · by_cases h0 : w.fopen 0 = true <;>
      simp [main, hroot, hlen, command_exists, callSystem, h1, handle_error_eq, exitStatus,
        traceOf, Res.state, State.emit, log_message_trace, systemCalls, stderrTexts, logLines, h0]

/-- C7 witness: `status /dev/md0` when `mdadm` is not installed. -/
theorem tools_missing_witness :
    noMdadmWorld.euid = 0 ∧ 2 ≤ ["bioctl", "status", "/dev/md0"].length ∧
    ¬ ToolsPresent noMdadmWorld ∧
    exitStatus (main noMdadmWorld ["bioctl", "status", "/dev/md0"]) = some 1 ∧
    logLines (traceOf (main noMdadmWorld ["bioctl", "status", "/dev/md0"])) =
      (if noMdadmWorld.fopen 0 = true then
        [logLine (noMdadmWorld.localtime 0) "ERROR"
          "Required commands mdadm or cryptsetup not found."]
      else []) :=
  ⟨rfl, by decide, by decide,
    (tools_missing noMdadmWorld ["bioctl", "status", "/dev/md0"] rfl (by decide) (by decide)).1,
    (tools_missing noMdadmWorld ["bioctl", "status", "/dev/md0"] rfl (by decide)
      (by decide)).2.2.2⟩

/-- C7 counterexample: `status /dev/md0` as root when `mdadm` is not found and
the log file cannot be opened: the run ends with status 1 and writes no log
line at all, so no `ERROR` entry. -/
theorem tools_missing_unwritable_log :
    noMdadmNoLogWorld.euid = 0 ∧ ¬ ToolsPresent noMdadmNoLogWorld ∧
    exitStatus (main noMdadmNoLogWorld ["bioctl", "status", "/dev/md0"]) = some 1 ∧
    logLines (traceOf (main noMdadmNoLogWorld ["bioctl", "status", "/dev/md0"])) = [] := by
  refine ⟨rfl, ?_, ?_, ?_⟩ <;> decide

/-- C8 (amended). In a privileged run, a missing subcommand makes the program
print the usage text and exit with status 1 without probing for the tools; an
unrecognized subcommand (compared exactly with the eight names), with both
tools present, makes it run the two probes, print the usage text and exit with
status 1. In both cases nothing is written to standard error or to the log. -/
theorem usage_without_error_entry (w : World) (hroot : w.euid = 0) :
    (∀ argv : List String, argv.length < 2 →
      exitStatus (main w argv) = some 1 ∧
      traceOf (main w argv) = [Event.stdout usageText]) ∧
    (ToolsPresent w → ∀ (p sub : String) (rest : List String), sub ∉ subcommands →
      exitStatus (main w (p :: sub :: rest)) = some 1 ∧
      traceOf (main w (p :: sub :: rest)) =
        [Event.system (probeCmd "mdadm"), Event.system (probeCmd "cryptsetup"),
          Event.stdout usageText] ∧
      stderrTexts (traceOf (main w (p :: sub :: rest))) = [] ∧
      logLines (traceOf (main w (p :: sub :: rest))) = []) := by
  constructor
  · intro argv hlen
    simp [main, hroot, hlen, usage, exitStatus, traceOf, Res.state, State.emit]
  · intro htools p sub rest hsub
    simp only [subcommands, List.mem_cons, List.mem_singleton, not_or, List.not_mem_nil,
      not_false_eq_true, and_true] at hsub
    obtain ⟨h1, h2, h3, h4, h5, h6, h7, h8⟩ := hsub
    rw [main_dispatch w hroot htools]
    simp [dispatch, h1, h2, h3, h4, h5, h6, h7, h8, usage, finish, exitStatus, traceOf,
      Res.state, State.emit, probedState, stderrTexts, logLines]

/-- C8 witness: no subcommand at all. -/
theorem usage_without_error_entry_witness :
    demoWorld.euid = 0 ∧ ["bioctl"].length < 2 ∧
    exitStatus (main demoWorld ["bioctl"]) = some 1 ∧
    traceOf (main demoWorld ["bioctl"]) = [Event.stdout usageText] :=
  ⟨rfl, by decide, (usage_without_error_entry demoWorld rfl).1 ["bioctl"] (by decide)⟩

/-- C8 counterexample: with a log file that opens, neither a run without a
subcommand nor a run with the unrecognized subcommand `Create` writes anything
to standard error or to the log. -/
theorem usage_error_not_logged :
    demoWorld.euid = 0 ∧ ToolsPresent demoWorld ∧ LogWritable demoWorld ∧
    "Create" ∉ subcommands ∧
    stderrTexts (traceOf (main demoWorld ["bioctl"])) = [] ∧
    logLines (traceOf (main demoWorld ["bioctl"])) = [] ∧
    stderrTexts (traceOf (main demoWorld ["bioctl", "Create", "/dev/md0"])) = [] ∧
    logLines (traceOf (main demoWorld ["bioctl", "Create", "/dev/md0"])) = [] := by
  refine ⟨rfl, ⟨rfl, rfl⟩, fun _ => rfl, ?_, ?_, ?_, ?_, ?_⟩ <;> decide


/-! ## Decimal conversion -/

theorem decDigitsFuel_eq_of_lt (f : Nat) : ∀ g n, n < f → n < g →
    decDigitsFuel f n = decDigitsFuel g n := by
  induction f with
  | zero => intro g n h; omega
  | succ f ih =>
    intro g n hf hg
    cases g with
    | zero => omega
    | succ g =>
      simp only [decDigitsFuel]
      split
      · rfl
      · rw [ih g (n / 10) (by omega) (by omega)]

theorem decDigitsFuel_succ (f n : Nat) :
    decDigitsFuel (f + 1) n =
      if n < 10 then [digitChar n] else decDigitsFuel f (n / 10) ++ [digitChar (n % 10)] :=
  rfl

theorem decDigits_eq (n : Nat) :
    decDigits n = if n < 10 then [digitChar n] else decDigits (n / 10) ++ [digitChar (n % 10)] := by
  unfold decDigits
  rw [decDigitsFuel_succ]
  split
  · rfl
  · rw [decDigitsFuel_eq_of_lt n (n / 10 + 1) (n / 10) (by omega) (by omega)]

theorem fixedDigits_zero (k : Nat) : fixedDigits k 0 = List.replicate k '0' := by
  induction k with
  | zero => rfl
  | succ k ih =>
    simp only [fixedDigits, Nat.zero_div, ih, Nat.zero_mod]
    rw [List.replicate_succ']
    rfl

theorem pad_decDigits (k : Nat) : ∀ n, n < 10 ^ (k + 1) →
    (decDigits n).length ≤ k + 1 ∧
    List.replicate (k + 1 - (decDigits n).length) '0' ++ decDigits n = fixedDigits (k + 1) n := by
  induction k with
  | zero =>
    intro n hn
    have h : n < 10 := by simpa using hn
    rw [decDigits_eq, if_pos h]
    simp [fixedDigits, Nat.mod_eq_of_lt h]
  | succ k ih =>
    intro n hn
    by_cases h : n < 10
    · rw [decDigits_eq, if_pos h]
      have hd : n / 10 = 0 := by omega
      simp [fixedDigits, hd, Nat.mod_eq_of_lt h]
      rw [fixedDigits_zero, List.replicate_succ', List.append_assoc]
      rfl
    · have hq : n / 10 < 10 ^ (k + 1) := by
        rw [Nat.div_lt_iff_lt_mul (by decide)]
        calc n < 10 ^ (k + 1 + 1) := hn
          _ = 10 ^ (k + 1) * 10 := by rw [pow_succ]
      obtain ⟨hl, he⟩ := ih (n / 10) hq
      rw [decDigits_eq, if_neg h]
      constructor
      · simp only [List.length_append, List.length_singleton]
        omega
      · have e : k + 1 + 1 - ((decDigits (n / 10)).length + 1) =
            k + 1 - (decDigits (n / 10)).length := by omega
        simp only [List.length_append, List.length_singleton, e]
        rw [← List.append_assoc, he]
        rfl

theorem fmt_0d_two (v : Int) (h0 : 0 ≤ v) (h1 : v ≤ 99) : fmt_0d 2 v = twoDigits v.toNat := by
  obtain ⟨n, rfl⟩ := Int.eq_ofNat_of_zero_le h0
  have hn : n < 10 ^ (1 + 1) := by simp; omega
  have := (pad_decDigits 1 n hn).2
  simp only [fmt_0d, h0, if_true, Int.toNat_ofNat, twoDigits]
  rw [this]
  simp [fixedDigits]

theorem fmt_0d_four (v : Int) (h0 : 0 ≤ v) (h1 : v ≤ 9999) :
    fmt_0d 4 v = fourDigits v.toNat := by
  obtain ⟨n, rfl⟩ := Int.eq_ofNat_of_zero_le h0
  have hn : n < 10 ^ (3 + 1) := by simp; omega
  have := (pad_decDigits 3 n hn).2
  simp only [fmt_0d, h0, if_true, Int.toNat_ofNat, fourDigits]
  rw [this]
  simp [fixedDigits, Nat.div_div_eq_div_mul]

theorem logLine_eq_timestamp (t : Tm) (level message : String) (h : InCalendarRange t) :
    logLine t level message = timestamp t ++ " [" ++ level ++ "] " ++ message ++ "\n" := by
  obtain ⟨⟨y0, y1⟩, ⟨m0, m1⟩, ⟨d0, d1⟩, ⟨h0, h1⟩, ⟨n0, n1⟩, ⟨s0, s1⟩⟩ := h
  unfold logLine timestamp
  rw [fmt_0d_four _ y0 y1, fmt_0d_two _ (by omega) (by omega), fmt_0d_two _ (by omega) (by omega),
    fmt_0d_two _ h0 (by omega), fmt_0d_two _ n0 (by omega), fmt_0d_two _ s0 (by omega)]

theorem digitChar_isDigit (d : Nat) (h : d < 10) : (digitChar d).isDigit = true := by
  interval_cases d <;> decide

theorem digitChar_ne_newline (d : Nat) (h : d < 10) : digitChar d ≠ '\n' := by
  interval_cases d <;> decide

theorem isTimestamp_timestamp (t : Tm) : isTimestamp (timestamp t) = true := by
  simp [isTimestamp, timestamp, fourDigits, twoDigits, digitChar_isDigit, Nat.mod_lt]

theorem timestamp_length (t : Tm) : (timestamp t).length = 19 := by
  simp [timestamp, fourDigits, twoDigits, String.length]


/-! ## Every log line comes from `log_message` -/

theorem logged_emit (w : World) (s : State) (e : Event) (h : Logged w s)
    (he : logLines [e] = []) : Logged w (s.emit e) := by
  intro line hl
  simp only [State.emit, logLines_append, he, List.append_nil] at hl
  exact h line hl

theorem logged_log_message (w : World) (level message : String) (s : State) (h : Logged w s)
    (hl : level = "INFO" ∨ level = "ERROR") (hm : NoNewline message) :
    Logged w (log_message w level message s) := by
  intro line hline
  rw [log_message_trace, logLines_append, List.mem_append] at hline
  rcases hline with hline | hline
  · exact h line hline
  · by_cases h0 : w.fopen s.logCalls = true
    · simp only [h0, if_true, logLines, List.mem_singleton] at hline
      exact ⟨s.logCalls, level, message, hl, hm, hline⟩
    · simp [h0, logLines] at hline

theorem logged_usage {α : Type} (w : World) (s : State) (h : Logged w s) :
    Logged w (usage s : Res α).state :=
  logged_emit w s _ h rfl

theorem logged_handle_error {α : Type} (w : World) (message : String) (s : State)
    (h : Logged w s) (hm : NoNewline message) :
    Logged w (handle_error w message s : Res α).state :=
  logged_usage w _
    (logged_log_message w "ERROR" message _ (logged_emit w s _ h rfl) (Or.inr rfl) hm)

theorem logged_logAndRun (w : World) (info cmd failure : String) (s : State) (h : Logged w s)
    (hi : NoNewline info) (hf : NoNewline failure) :
    Logged w (logAndRun w info cmd failure s).state := by
  have h1 : Logged w ((log_message w "INFO" info s).emit (Event.system cmd)) :=
    logged_emit w _ _ (logged_log_message w "INFO" info s h (Or.inl rfl) hi) rfl
  rw [logAndRun_eq]
  split
  · exact h1
  · exact logged_handle_error w failure _ h1 hf

theorem logged_dispatch (w : World) (argv : List String) (a1 : String) (s : State)
    (h : Logged w s) : Logged w (dispatch w argv a1 s).state := by
  unfold dispatch
  split_ifs
  · unfold create_raid
    split
    · exact logged_handle_error w _ s h (by decide)
    · split
      · exact h
      · exact logged_logAndRun w _ _ _ s h (by decide) (by decide)
  · unfold add_disk
    split
    · exact logged_logAndRun w _ _ _ s h (by decide) (by decide)
    · exact logged_handle_error w _ s h (by decide)
  · unfold remove_disk
    split
    · exact logged_logAndRun w _ _ _ s h (by decide) (by decide)
    · exact logged_handle_error w _ s h (by decide)
  · unfold status_raid
    split
    · exact logged_logAndRun w _ _ _ s h (by decide) (by decide)
    · exact logged_handle_error w _ s h (by decide)
  · unfold encrypt_disk
    split
    · exact logged_logAndRun w _ _ _ s h (by decide) (by decide)
    · exact logged_handle_error w _ s h (by decide)
  · unfold decrypt_disk
    split
    · exact logged_logAndRun w _ _ _ s h (by decide) (by decide)
    · exact logged_handle_error w _ s h (by decide)
  · exact logged_logAndRun w _ _ _ s h (by decide) (by decide)
  · unfold key_management
    split
    · split_ifs
      · exact logged_logAndRun w _ _ _ s h (by decide) (by decide)
      · exact logged_logAndRun w _ _ _ s h (by decide) (by decide)
      · exact logged_handle_error w _ s h (by decide)
    · exact logged_handle_error w _ s h (by decide)
  · exact logged_usage w s h

theorem state_finish (r : Res Unit) : (finish r).state = r.state := by
  cases r <;> rfl

theorem logged_main (w : World) (argv : List String) : Logged w (main w argv).state := by
  have h0 : Logged w { trace := [], logCalls := 0 } := by
    intro line hl
    simp [logLines] at hl
  unfold main
  simp only
  split_ifs
  · exact logged_emit w _ _ h0 rfl
  · exact logged_usage w _ h0
  · exact logged_handle_error w _ _ (logged_emit w _ _ h0 rfl) (by decide)
  · exact logged_handle_error w _ _ (logged_emit w _ _ (logged_emit w _ _ h0 rfl) rfl) (by decide)
  · split
    · exact logged_emit w _ _ (logged_emit w _ _ h0 rfl) rfl
    · rw [state_finish]
      exact logged_dispatch w _ _ _ (logged_emit w _ _ (logged_emit w _ _ h0 rfl) rfl)

theorem timestamp_count_newline (t : Tm) : (timestamp t).data.count '\n' = 0 := by
  rw [List.count_eq_zero]
  have hd : ∀ d, d < 10 → ¬ ('\n' = digitChar d) := fun d h e => digitChar_ne_newline d h e.symm
  simp [timestamp, fourDigits, twoDigits, hd, Nat.mod_lt]

/-- C9. Every line that a run writes to the log, for every argument vector and
every clock whose fields are in their calendar ranges with a full year from 0
to 9999, is `YYYY-MM-DD HH:MM:SS [LEVEL] message` followed by a newline: the
timestamp is the 19-character zero-padded rendering of the local time (month
counted from 1), the level is `INFO` or `ERROR`, the message has no newline,
and the line contains exactly one newline, its last character. -/
theorem log_line_format (w : World) (argv : List String)
    (hclock : ∀ k, InCalendarRange (w.localtime k)) (line : String)
    (hline : line ∈ logLines (traceOf (main w argv))) :
    ∃ k level message,
      (level = "INFO" ∨ level = "ERROR") ∧ NoNewline message ∧
      line = timestamp (w.localtime k) ++ " [" ++ level ++ "] " ++ message ++ "\n" ∧
      isTimestamp (timestamp (w.localtime k)) = true ∧
      (timestamp (w.localtime k)).length = 19 ∧
      line.data.count '\n' = 1 ∧ line.data.getLast? = some '\n' := by
  obtain ⟨k, level, message, hl, hm, he⟩ := logged_main w argv line hline
  rw [logLine_eq_timestamp _ _ _ (hclock k)] at he
  refine ⟨k, level, message, hl, hm, he, isTimestamp_timestamp _, timestamp_length _, ?_, ?_⟩
  · have hmc : message.data.count '\n' = 0 := List.count_eq_zero.mpr hm
    have hlc : level.data.count '\n' = 0 := by
      rcases hl with h | h <;> subst h <;> decide
    subst he
    simp only [String.data_append, List.count_append, timestamp_count_newline, hmc, hlc]
    decide
  · subst he
    rw [String.data_append]
    exact List.getLast?_concat _

/-- C9 witness: the `INFO` line of `status /dev/md0` on 2026-10-30 10:05:07. -/
theorem log_line_format_witness :
    (∀ k, InCalendarRange (demoWorld.localtime k)) ∧
    "2026-10-30 10:05:07 [INFO] Checking RAID status\n" ∈
      logLines (traceOf (main demoWorld ["bioctl", "status", "/dev/md0"])) ∧
    ∃ k level message,
      (level = "INFO" ∨ level = "ERROR") ∧ NoNewline message ∧
      "2026-10-30 10:05:07 [INFO] Checking RAID status\n" =
        timestamp (demoWorld.localtime k) ++ " [" ++ level ++ "] " ++ message ++ "\n" ∧
      isTimestamp (timestamp (demoWorld.localtime k)) = true ∧
      (timestamp (demoWorld.localtime k)).length = 19 ∧
      "2026-10-30 10:05:07 [INFO] Checking RAID status\n".data.count '\n' = 1 ∧
      "2026-10-30 10:05:07 [INFO] Checking RAID status\n".data.getLast? = some '\n' :=
  ⟨fun _ => (by decide : InCalendarRange (demoWorld.localtime 0)), by decide,
    log_line_format demoWorld ["bioctl", "status", "/dev/md0"]
      (fun _ => (by decide : InCalendarRange (demoWorld.localtime 0)))
      "2026-10-30 10:05:07 [INFO] Checking RAID status\n" (by decide)⟩

end Bioctl
